import Mathlib

/-!
Verification development for the Insight-Engine query-generation core
(`src/logic.py`).  The pure Python functions (`clean_sql_output`,
`is_query_valid`'s gate, `generate_and_validate_sql`'s retry loop) are
embedded directly.  External collaborators (the Ollama generation service
and the SQLAlchemy database engine) are modelled as oracles.  The
`sqlparse` token-tree used by `fix_postgres_sql` is a third-party library
not vendored in the repository; its parse / token-tree / serialisation
behaviour is modelled from the spec (section 4.1), while the six rewrite
rules themselves are translated from `src/logic.py` lines 33-85.

Scope notes: strings are treated at ASCII granularity (the repository's
SQL and messages are ASCII); Python `str.strip()` is modelled over the
ASCII whitespace characters, and `str.upper()` over ASCII letters.
-/

/-- Python ASCII whitespace characters, the ones `str.strip()` removes on
ASCII input: space, tab, newline, carriage return, vertical tab, form feed. -/
def isPyWs (c : Char) : Bool :=
  c = ' ' || c = '\t' || c = '\n' || c = '\r' || c = '\x0b' || c = '\x0c'

/-- ASCII uppercase of a single character, as Python `str.upper()` acts on
ASCII letters. -/
def asciiUpper (c : Char) : Char :=
  if 'a' ≤ c && c ≤ 'z' then Char.ofNat (c.toNat - 32) else c

/-- Uppercase a character list (Python `str.upper()` on ASCII text). -/
def asciiUpperL (cs : List Char) : List Char := cs.map asciiUpper

/-- Python `str.strip()` on a character list (ASCII whitespace). -/
def pyStripL (cs : List Char) : List Char :=
  ((cs.dropWhile isPyWs).reverse.dropWhile isPyWs).reverse

/-- Python `str.strip()` on a string (ASCII whitespace). -/
def pyStrip (s : String) : String := String.mk (pyStripL s.data)

/-- Python `str.upper()` on a string (ASCII letters). -/
def pyUpper (s : String) : String := String.mk (asciiUpperL s.data)

/-- Word character for the regex `\b` boundary in `clean_sql_output`'s
pattern, at ASCII granularity: letters, digits, underscore. -/
def isWordCh (c : Char) : Bool := c.isAlphanum || c = '_'

/-- True when the position starting this suffix is a match of the regex
alternation `(SELECT|WITH)` with its trailing `\b`, case-insensitively:
the uppercased next characters spell the keyword and the character after
it (if any) is not a word character. -/
def startKwAt (cs : List Char) : Bool :=
  (decide (asciiUpperL (cs.take 6) = "SELECT".data) &&
    (match cs.drop 6 with | [] => true | c :: _ => !isWordCh c)) ||
  (decide (asciiUpperL (cs.take 4) = "WITH".data) &&
    (match cs.drop 4 with | [] => true | c :: _ => !isWordCh c))

/-- Scan for the leftmost match of `\b(SELECT|WITH)\b` (case-insensitive),
as `re.search` does in `clean_sql_output`; `prevWord` records whether the
character just before the current position is a word character (for the
leading `\b`).  Returns the suffix of the input starting at the match. -/
def findQueryStart : Bool → List Char → Option (List Char)
  | _, [] => none
  | prevWord, c :: rest =>
    if !prevWord && startKwAt (c :: rest) then some (c :: rest)
    else findQueryStart (isWordCh c) rest

/-- Truncate at the last semicolon inclusive (Python `rfind(';')` plus
slice in `clean_sql_output`); if no semicolon is present the whole list is
kept. -/
def truncLastSemi (cs : List Char) : List Char :=
  match (cs.reverse.dropWhile (fun c => !(c = ';'))) with
  | [] => cs
  | found => found.reverse

/-- Embedding of `clean_sql_output` (src/logic.py lines 211-248): find the
first case-insensitive `\b(SELECT|WITH)\b` match, drop everything before
it, truncate at the last semicolon inclusive when one exists, and strip
whitespace; empty (or falsy) input and no-match input both give "". -/
def clean_sql_output (raw_output : String) : String :=
  match findQueryStart false raw_output.data with
  | none => ""
  | some suffix => String.mk (pyStripL (truncLastSemi suffix))

/-!
Token-tree model for the Dialect Normalizer (`fix_postgres_sql`,
src/logic.py lines 20-85).

Modelled from the spec: the repository calls the third-party `sqlparse`
library (not vendored in the repository) to parse SQL into a token tree
("parsing the input into a token tree and recursively rewriting", spec
section 4.1) and to serialise it back.  The model below provides that
parse: a tokenizer (whitespace runs, backtick-quoted names, single- and
double-quoted literals, numbers, words classified as keywords or names —
a word directly followed by `(` is a function name, not a keyword — and
punctuation), grouping of parentheses, of `name (args)` function calls,
and of plain identifiers, and value serialisation.  A function's
parameters are the top-level elements of its parenthesis group other than
punctuation, whitespace and keywords (identifiers, nested calls and
literals).  The six rewrite rules, their triggering conditions (function
name and exact parameter count) and their output templates are translated
directly from src/logic.py lines 38-82.
-/

/-- Token type tags for the SQL tokenizer model. -/
inductive TType where
  | ws | nameTok | nameQuoted | keywordTok | punct | numberTok
  | stringSingle | stringSymbol | wildcard | opTok | errTok
  deriving DecidableEq

/-- A raw (leaf) token: its type tag and its exact source text. -/
structure RawTok where
  tt : TType
  v : String
  deriving DecidableEq

/-- Tail characters of a SQL word. -/
def isWordTailCh (c : Char) : Bool := c.isAlphanum || c = '_' || c = '$' || c = '#'

/-- Head characters of a SQL word. -/
def isWordHeadCh (c : Char) : Bool := c.isAlpha || c = '_'

/-- Words that stay keywords even directly before a parenthesis. -/
def keywordEvenBeforeParen : List String := ["CASE", "IN", "VALUES", "USING", "FROM", "AS"]

/-- SQL keywords recognised by the tokenizer model (a word not directly
followed by `(` and found here, case-insensitively, is a keyword;
otherwise it is a name). -/
def sqlKeywords : List String :=
  ["SELECT", "FROM", "WHERE", "GROUP", "ORDER", "BY", "AS", "WITH", "ON",
   "AND", "OR", "NOT", "NULL", "JOIN", "LEFT", "RIGHT", "INNER", "OUTER",
   "CAST", "COALESCE", "CURRENT_TIMESTAMP", "CURRENT_DATE", "DATE", "NUMERIC",
   "INTEGER", "CASE", "WHEN", "THEN", "ELSE", "END", "IN", "VALUES", "USING",
   "LIMIT", "OFFSET", "DISTINCT", "BETWEEN", "IS", "LIKE", "HAVING", "UNION", "ALL"]

/-- Classify a word token given the characters that follow it: the
special always-keywords stay keywords; any other word directly followed
by `(` is a (function) name; otherwise keywords are looked up. -/
def classifyWord (w : String) (rest : List Char) : TType :=
  let wu := String.mk (asciiUpperL w.data)
  if keywordEvenBeforeParen.contains wu then .keywordTok
  else
    match rest with
    | '(' :: _ => .nameTok
    | _ => if sqlKeywords.contains wu then .keywordTok else .nameTok

/-- Scan a quoted run: `cs` is the text after the opening quote; returns
the content and the remainder after the closing quote, or none if the
quote is unterminated. -/
def scanQuoted (q : Char) (cs : List Char) : Option (List Char × List Char) :=
  match List.span (fun c => !(c = q)) cs with
  | (body, _ :: rest) => some (body, rest)
  | (_, []) => none

/-- Tokenizer main loop; fuel is decremented on every emitted token and
every step consumes at least one character, so fuel `length + 1`
suffices. -/
def tokenizeAux : Nat → List Char → List RawTok
  | 0, _ => []
  | _, [] => []
  | fuel+1, c :: cs =>
    if isPyWs c then
      let p := List.span isPyWs (c :: cs)
      ⟨.ws, String.mk p.1⟩ :: tokenizeAux fuel p.2
    else if c = '`' then
      match scanQuoted '`' cs with
      | some (body, rest) =>
          ⟨.nameQuoted, String.mk ('`' :: (body ++ ['`']))⟩ :: tokenizeAux fuel rest
      | none => ⟨.errTok, "`"⟩ :: tokenizeAux fuel cs
    else if c = '\'' then
      match scanQuoted '\'' cs with
      | some (body, rest) =>
          ⟨.stringSingle, String.mk ('\'' :: (body ++ ['\'']))⟩ :: tokenizeAux fuel rest
      | none => ⟨.errTok, "'"⟩ :: tokenizeAux fuel cs
    else if c = '"' then
      match scanQuoted '"' cs with
      | some (body, rest) =>
          ⟨.stringSymbol, String.mk ('"' :: (body ++ ['"']))⟩ :: tokenizeAux fuel rest
      | none => ⟨.errTok, "\""⟩ :: tokenizeAux fuel cs
    else if c.isDigit then
      let p := List.span (fun d => d.isDigit || d = '.') (c :: cs)
      ⟨.numberTok, String.mk p.1⟩ :: tokenizeAux fuel p.2
    else if isWordHeadCh c then
      let p := List.span isWordTailCh (c :: cs)
      ⟨classifyWord (String.mk p.1) p.2, String.mk p.1⟩ :: tokenizeAux fuel p.2
    else if c = '(' || c = ')' || c = ',' || c = ';' || c = ':' || c = '.' || c = '[' || c = ']' then
      ⟨.punct, String.mk [c]⟩ :: tokenizeAux fuel cs
    else if c = '*' then
      ⟨.wildcard, "*"⟩ :: tokenizeAux fuel cs
    else
      ⟨.opTok, String.mk [c]⟩ :: tokenizeAux fuel cs

/-- Tokenize a SQL string. -/
def tokenize (s : String) : List RawTok := tokenizeAux (s.data.length + 1) s.data

/-- First statement of a token stream: `sqlparse.parse` splits statements
at top-level semicolons and `fix_postgres_sql` keeps only `parsed[0]`;
the splitter tracks parenthesis depth. -/
def firstStatement : List RawTok → Nat → List RawTok
  | [], _ => []
  | t :: rest, depth =>
    if t.tt == TType.punct && t.v == ";" && depth == 0 then [t]
    else if t.tt == TType.punct && t.v == "(" then t :: firstStatement rest (depth + 1)
    else if t.tt == TType.punct && t.v == ")" then t :: firstStatement rest (depth - 1)
    else t :: firstStatement rest depth

/-- Kinds of token groups in the tree: parenthesis groups, function
calls, identifiers. -/
inductive GKind where
  | parenK | funcK | identK
  deriving DecidableEq

/-- A token tree node: a leaf token, or a group carrying its serialised
value (maintained by construction through `mkGroup`, mirroring the
serialisation of the token tree) and its children. -/
inductive STok where
  | atom (tt : TType) (v : String)
  | group (k : GKind) (val : String) (ts : List STok)

/-- The serialised text of a token tree node. -/
def tokVal : STok → String
  | .atom _ v => v
  | .group _ val _ => val

/-- Concatenation of the serialised values of a token list. -/
def concatVals (ts : List STok) : String := ts.foldl (fun a t => a ++ tokVal t) ""

/-- Build a group node, computing its serialised value from its
children. -/
def mkGroup (k : GKind) (ts : List STok) : STok := .group k (concatVals ts) ts

/-- Parenthesis grouping: consume tokens until an unmatched `)` (left in
the remainder) or the end, turning each balanced `( ... )` into a group. -/
def buildAux : Nat → List RawTok → List STok × List RawTok
  | 0, ts => ([], ts)
  | _+1, [] => ([], [])
  | fuel+1, t :: rest =>
    if t.tt == TType.punct && t.v == ")" then ([], t :: rest)
    else if t.tt == TType.punct && t.v == "(" then
      match buildAux fuel rest with
      | (inner, close :: rest2) =>
        if close.tt == TType.punct && close.v == ")" then
          let g := mkGroup .parenK (.atom .punct "(" :: (inner ++ [.atom .punct ")"]))
          match buildAux fuel rest2 with
          | (tail, rest3) => (g :: tail, rest3)
        else ([mkGroup .parenK (.atom .punct "(" :: inner)], close :: rest2)
      | (inner, []) => ([mkGroup .parenK (.atom .punct "(" :: inner)], [])
    else
      match buildAux fuel rest with
      | (tail, rest2) => (.atom t.tt t.v :: tail, rest2)

/-- Top-level parenthesis grouping; a stray unmatched `)` stays a plain
token. -/
def buildTop : Nat → List RawTok → List STok
  | 0, _ => []
  | fuel+1, ts =>
    match buildAux (2 * ts.length + 2) ts with
    | (content, []) => content
    | (content, t :: rest) => content ++ .atom t.tt t.v :: buildTop fuel rest

/-- Split a leading run of whitespace atoms. -/
def splitWsRun : List STok → List STok × List STok
  | [] => ([], [])
  | .atom .ws v :: rest =>
    match splitWsRun rest with
    | (a, b) => (.atom .ws v :: a, b)
  | t :: rest => ([], t :: rest)

/-- Function grouping at one level: a name token whose next non-whitespace
sibling is a parenthesis group becomes a function-call group (containing
the name, the intervening whitespace and the parenthesis group). -/
def scanFuncs : Nat → List STok → List STok
  | 0, ts => ts
  | _+1, [] => []
  | fuel+1, t :: rest =>
    match t with
    | .atom .nameTok v =>
      match splitWsRun rest with
      | (wsRun, .group .parenK pval pts :: rest2) =>
          mkGroup .funcK (.atom .nameTok v :: (wsRun ++ [.group .parenK pval pts]))
            :: scanFuncs fuel rest2
      | _ => .atom .nameTok v :: scanFuncs fuel rest
    | other => other :: scanFuncs fuel rest

/-- Function grouping over the whole tree (children first, then the
current level). -/
def groupFuncsT : Nat → STok → STok
  | 0, t => t
  | fuel+1, .group k _ ts =>
      mkGroup k (scanFuncs (ts.length + 1) (ts.map (groupFuncsT fuel)))
  | _+1, .atom tt v => .atom tt v

/-- Identifier grouping: wrap plain names, backtick-quoted names and
double-quoted names into identifier groups, at every depth. -/
def groupIdsT : Nat → STok → STok
  | 0, t => t
  | _+1, .atom tt v =>
    if tt == TType.nameTok || tt == TType.nameQuoted || tt == TType.stringSymbol then
      mkGroup .identK [.atom tt v]
    else .atom tt v
  | _+1, .group .identK val ts => .group .identK val ts
  | fuel+1, .group k _ ts => mkGroup k (ts.map (groupIdsT fuel))

/-- Full grouping pipeline over a raw token stream: parentheses, then
function calls, then identifiers. -/
def groupStream (raw : List RawTok) : List STok :=
  let built := buildTop (raw.length + 1) raw
  (scanFuncs (built.length + 1) (built.map (groupFuncsT (raw.length + 2)))).map
    (groupIdsT (raw.length + 2))

/-- Parse a SQL snippet into a grouped token list (the model of
`reparse_snippet` in `fix_postgres_sql`, which re-parses a rewrite
template). -/
def parseSqlToks (s : String) : List STok := groupStream (tokenize s)

/-- Fix 1 of `fix_postgres_sql` (lines 38-41): a backtick-quoted name
becomes a double-quoted name; the token's text is rewritten in place. -/
def fix1Atom (tt : TType) (v : String) : STok :=
  if tt == TType.nameQuoted && v.data.head? == some '`' && v.data.getLast? == some '`' then
    .atom .nameQuoted (String.mk ('"' :: ((v.data.drop 1).dropLast ++ ['"'])))
  else .atom tt v

/-- The function name of a function-call group's children (lines 44-48):
the first child that is a keyword (normalised to upper case) or an
identifier (its value as written). -/
def funcNameOf : List STok → Option String
  | [] => none
  | .atom .keywordTok v :: _ => some (String.mk (asciiUpperL v.data))
  | .group .identK val _ :: _ => some val
  | _ :: rest => funcNameOf rest

/-- Whether a token counts as a function parameter (model of
`Function.get_parameters`): identifiers, nested calls and literals count;
punctuation, whitespace and keywords do not. -/
def isParamTok : STok → Bool
  | .group .funcK _ _ => true
  | .group .identK _ _ => true
  | .atom .numberTok _ => true
  | .atom .stringSingle _ => true
  | .atom .stringSymbol _ => true
  | _ => false

/-- The first parenthesis group among a function-call group's children. -/
def firstParen : List STok → Option STok
  | [] => none
  | .group .parenK val ts :: _ => some (.group .parenK val ts)
  | _ :: rest => firstParen rest

/-- The parameters of a function-call group (model of
`token.get_parameters()` in line 52). -/
def paramsOf (ts : List STok) : List STok :=
  match firstParen ts with
  | some (.group _ _ children) => children.filter isParamTok
  | _ => []

/-- Fixes 2-6 of `fix_postgres_sql` (lines 43-82), applied to one token:
for a function-call group, look up the function name and parameters and,
on an exact match of name and parameter count, replace the group's
children by the re-parsed rewrite template.  The templates and argument
selections are verbatim from the source: `NOW()` (no parameters) becomes
`CURRENT_TIMESTAMP`; `IFNULL(a, b)` becomes `COALESCE(a, b)`; `DATE(x)`
becomes `CAST(x AS DATE)`; `ROUND(x, n)` becomes
`ROUND(CAST(x AS NUMERIC), n)`; `FORMAT_DATE(style, col)` becomes
`TO_CHAR(col, 'Month')`, the style parameter being discarded. -/
def applyFixes (t : STok) : STok :=
  match t with
  | .group .funcK val ts =>
    match funcNameOf ts with
    | none => .group .funcK val ts
    | some nm =>
      match nm, paramsOf ts with
      | "NOW", [] => mkGroup .funcK (parseSqlToks "CURRENT_TIMESTAMP")
      | "IFNULL", [a, b] =>
          mkGroup .funcK (parseSqlToks ("COALESCE(" ++ tokVal a ++ ", " ++ tokVal b ++ ")"))
      | "DATE", [a] =>
          mkGroup .funcK (parseSqlToks ("CAST(" ++ tokVal a ++ " AS DATE)"))
      | "ROUND", [a, b] =>
          mkGroup .funcK
            (parseSqlToks ("ROUND(CAST(" ++ tokVal a ++ " AS NUMERIC), " ++ tokVal b ++ ")"))
      | "FORMAT_DATE", [_, b] =>
          mkGroup .funcK (parseSqlToks ("TO_CHAR(" ++ tokVal b ++ ", 'Month')"))
      | _, _ => .group .funcK val ts
  | t => t

/-- The recursive pass of `process_tokens` (lines 33-84) on one token:
children of a group are processed first, then the backtick fix applies to
leaf tokens and the function fixes to function-call groups.  A rewritten
subtree is not reprocessed. -/
def processTok : Nat → STok → STok
  | 0, t => t
  | _+1, .atom tt v => fix1Atom tt v
  | fuel+1, .group .funcK _ ts => applyFixes (mkGroup .funcK (ts.map (processTok fuel)))
  | fuel+1, .group k _ ts => mkGroup k (ts.map (processTok fuel))

/-- Embedding of `fix_postgres_sql` (src/logic.py lines 20-85): parse the
input, keep the first statement, run `process_tokens` over its token
tree, serialise and strip. -/
def fix_postgres_sql (sql : String) : String :=
  let raw := tokenize sql
  if raw.isEmpty then pyStrip sql
  else
    let stmt := firstStatement raw 0
    let tree := groupStream stmt
    pyStrip (concatVals (tree.map (processTok (stmt.length + 4))))

/-!
Validator (`is_query_valid`, src/logic.py lines 110-127) and
generation-validation loop (`generate_and_validate_sql`, lines 130-209).
The database engine and the generation service are external
collaborators, modelled as oracles.
-/

/-- Python `str.startswith` on ASCII strings. -/
def strStarts (s p : String) : Bool := p.data.isPrefixOf s.data

/-- Outcome of the database dry-run (`EXPLAIN`) call inside
`is_query_valid`: success, a `ProgrammingError` from the planner carrying
the database's original error text (`e.orig`), or any other exception. -/
inductive ExplainOutcome where
  | ok
  | programmingError (orig : String)
  | otherError (msg : String)
  deriving DecidableEq

/-- One Validator call: the `(bool, message)` pair it returns, plus
whether the database dry-run was invoked during the call. -/
structure ValidationRun where
  result : Bool × String
  dbInvoked : Bool
  deriving DecidableEq

/-- The fixed rejection message of the Validator's read-only gate
(src/logic.py line 117). -/
def rejectionMessage : String :=
  "Validation failed: Only SELECT or CTE statements can be checked."

/-- Embedding of `is_query_valid` (src/logic.py lines 110-127): strip and
uppercase the candidate; if it does not start with `SELECT` or `WITH`,
reject with the fixed message without touching the database; otherwise
run the dry-run oracle: success gives `(true, "OK")`, a planner rejection
gives `(false, the database's error text)`, anything else gives `(false,
a wrapped generic message)`. -/
def is_query_valid (explain : String → ExplainOutcome) (sql_query : String) : ValidationRun :=
  if !(strStarts (pyUpper (pyStrip sql_query)) "SELECT"
        || strStarts (pyUpper (pyStrip sql_query)) "WITH") then
    { result := (false, rejectionMessage), dbInvoked := false }
  else
    match explain sql_query with
    | .ok => { result := (true, "OK"), dbInvoked := true }
    | .programmingError m => { result := (false, m), dbInvoked := true }
    | .otherError m =>
        { result := (false, "An unexpected error occurred: " ++ m), dbInvoked := true }

/-- Outcome of the generation-validation loop: the validated SQL string,
or the message of the `ValueError` raised on retry exhaustion. -/
inductive LoopOutcome where
  | success (sql : String)
  | failure (msg : String)
  deriving DecidableEq

/-- One run of the generation-validation loop: its outcome and how many
generation-service calls and validation calls were performed. -/
structure LoopRun where
  outcome : LoopOutcome
  genCalls : Nat
  valCalls : Nat
  deriving DecidableEq

/-- The Output Extractor applied to the generation service's response;
`query_olama` returns `None` on a communication error, and the falsy
check at the top of `clean_sql_output` maps that to "". -/
def cleanOpt : Option String → String
  | none => ""
  | some s => clean_sql_output s

/-- The candidate produced at attempt `k` of the loop: raw response,
then Output Extractor, then Dialect Normalizer (src/logic.py lines
190-192). -/
def candidateAt (gen : Nat → Option String) (k : Nat) : String :=
  fix_postgres_sql (cleanOpt (gen k))

/-- The terminal `ValueError` message on retry exhaustion (src/logic.py
lines 206-209), carrying the total attempt count and the last database
error text. -/
def exhaustionMessage (totalAttempts : Nat) (lastError : String) : String :=
  "Failed to generate a syntactically valid SQL query after " ++ Nat.repr totalAttempts
    ++ " attempts. Last database error: " ++ lastError

/-- The retry loop of `generate_and_validate_sql` (lines 165-209):
`remaining` counts the attempts left (`range(max_syntax_retries + 1)`),
`attempt` is the zero-based index of the next attempt, and the last
argument is the stored `error_message`.  Each attempt makes one
generation call and one validation call; a valid candidate is returned
at once, and when the range is exhausted the `ValueError` is raised with
the total attempt count and the last error. -/
def loopAux (gen : Nat → Option String) (validate : Nat → String → Bool × String)
    (maxRetries : Nat) : Nat → Nat → String → LoopRun
  | 0, attempt, errMsg =>
      { outcome := .failure (exhaustionMessage (maxRetries + 1) errMsg),
        genCalls := attempt, valCalls := attempt }
  | remaining+1, attempt, _ =>
      if (validate attempt (candidateAt gen attempt)).1 then
        { outcome := .success (candidateAt gen attempt),
          genCalls := attempt + 1, valCalls := attempt + 1 }
      else
        loopAux gen validate maxRetries remaining (attempt + 1)
          (validate attempt (candidateAt gen attempt)).2

/-- Embedding of `generate_and_validate_sql` (src/logic.py lines
130-209).  The generation service (prompt building plus `query_olama`)
is the oracle `gen` from attempt index to raw response, `none` modelling
a communication failure; the Validator's verdict is the oracle `validate`
from attempt index and candidate string to the `(bool, message)` pair —
indexing by attempt reflects that the live database may answer
differently on different calls.  Prompt construction (including
refinement mode) only shapes the text handed to the generation service,
which the oracle absorbs; the loop state is fresh on every invocation,
nothing is cached across calls. -/
def generate_and_validate_sql (gen : Nat → Option String)
    (validate : Nat → String → Bool × String) (max_syntax_retries : Nat) : LoopRun :=
  loopAux gen validate max_syntax_retries (max_syntax_retries + 1) 0 ""

/-!
Concrete oracles used by the witnesses, and tree and boundary helpers
used by the theorems.
-/

/-- Oracle for tests: the generation service always answers with a fenced
SELECT statement. -/
def genOracleFenced : Nat → Option String :=
  fun _ => some "Sure! ```sql\nSELECT 1;\n``` done"

/-- Oracle for tests: the Validator accepts everything. -/
def valOracleOk : Nat → String → Bool × String := fun _ _ => (true, "OK")

/-- Oracle for tests: the Validator rejects everything with a fixed
planner message. -/
def valOracleFail : Nat → String → Bool × String :=
  fun _ _ => (false, "syntax error at or near X")

/-- Word-boundary state for a position in the scanned text: with `pre`
the characters before the position, the leading `\b` of the pattern holds
there when the last character of `pre` is not a word character (for an
empty `pre`, when the scan state `prevWord` says no word character
precedes). -/
def bOkAfter (prevWord : Bool) (pre : List Char) : Bool :=
  match pre.getLast? with
  | none => !prevWord
  | some c => !isWordCh c

/-- A two-argument call node `nm(p, q)` in the token tree, as the grouping
phase produces it: the name wrapped as an identifier, then the
parenthesis group holding the two arguments around a comma. -/
def mkCall2 (nm : String) (p q : STok) : STok :=
  .group .funcK (nm ++ "(" ++ tokVal p ++ ", " ++ tokVal q ++ ")")
    [.group .identK nm [.atom .nameTok nm],
     .group .parenK ("(" ++ tokVal p ++ ", " ++ tokVal q ++ ")")
       [.atom .punct "(", p, .atom .punct ",", .atom .ws " ", q, .atom .punct ")"]]

/-!
Helper lemmas.
-/

lemma loopAux_step_true (gen : Nat → Option String)
    (validate : Nat → String → Bool × String) (mr r a : Nat) (e : String)
    (h : (validate a (candidateAt gen a)).1 = true) :
    loopAux gen validate mr (r+1) a e =
      { outcome := .success (candidateAt gen a), genCalls := a + 1, valCalls := a + 1 } := by
  simp only [loopAux, h, if_true]

lemma loopAux_step_false (gen : Nat → Option String)
    (validate : Nat → String → Bool × String) (mr r a : Nat) (e : String)
    (h : (validate a (candidateAt gen a)).1 = false) :
    loopAux gen validate mr (r+1) a e =
      loopAux gen validate mr r (a + 1) (validate a (candidateAt gen a)).2 := by
  simp only [loopAux, h, Bool.false_eq_true, if_false]

lemma loopAux_genCalls_le (gen : Nat → Option String)
    (validate : Nat → String → Bool × String) (mr : Nat) :
    ∀ r a e, (loopAux gen validate mr r a e).genCalls ≤ a + r := by
  intro r
  induction r with
  | zero => intro a e; simp [loopAux]
  | succ n ih =>
    intro a e
    cases h : (validate a (candidateAt gen a)).1 with
    | true =>
      rw [loopAux_step_true gen validate mr n a e h]
      show a + 1 ≤ a + (n + 1)
      omega
    | false =>
      rw [loopAux_step_false gen validate mr n a e h]
      have := ih (a + 1) (validate a (candidateAt gen a)).2
      omega

lemma loopAux_allFail (gen : Nat → Option String)
    (validate : Nat → String → Bool × String) (mr : Nat)
    (hfail : ∀ k c, (validate k c).1 = false) :
    ∀ r a e, loopAux gen validate mr (r+1) a e =
      { outcome := .failure (exhaustionMessage (mr + 1)
          ((validate (a + r) (candidateAt gen (a + r))).2)),
        genCalls := a + r + 1, valCalls := a + r + 1 } := by
  intro r
  induction r with
  | zero =>
    intro a e
    rw [loopAux_step_false gen validate mr 0 a e (hfail _ _)]
    simp [loopAux]
  | succ n ih =>
    intro a e
    rw [loopAux_step_false gen validate mr (n+1) a e (hfail _ _)]
    rw [ih (a + 1) (validate a (candidateAt gen a)).2]
    rw [show a + 1 + n = a + (n + 1) from by omega]

lemma loopAux_success_validated (gen : Nat → Option String)
    (validate : Nat → String → Bool × String) (mr : Nat) :
    ∀ r a e q gc vc,
      loopAux gen validate mr r a e =
        { outcome := .success q, genCalls := gc, valCalls := vc } →
      ∃ k, a ≤ k ∧ k < a + r ∧ gc = k + 1 ∧ q = candidateAt gen k ∧
        (validate k q).1 = true := by
  intro r
  induction r with
  | zero => intro a e q gc vc h; simp [loopAux, exhaustionMessage] at h
  | succ n ih =>
    intro a e q gc vc h
    cases hv : (validate a (candidateAt gen a)).1 with
    | true =>
      rw [loopAux_step_true gen validate mr n a e hv] at h
      simp only [LoopRun.mk.injEq, LoopOutcome.success.injEq] at h
      obtain ⟨hq, hgc, hvc⟩ := h
      exact ⟨a, Nat.le_refl a, by omega, by omega, hq.symm, by rw [← hq]; exact hv⟩
    | false =>
      rw [loopAux_step_false gen validate mr n a e hv] at h
      obtain ⟨k, hk1, hk2, hk3, hk4, hk5⟩ := ih (a + 1) _ q gc vc h
      exact ⟨k, by omega, by omega, hk3, hk4, hk5⟩

lemma bOkAfter_cons (w : Bool) (c : Char) (pre : List Char) :
    bOkAfter w (c :: pre) = bOkAfter (isWordCh c) pre := by
  cases pre with
  | nil => simp [bOkAfter]
  | cons d ds =>
    simp only [bOkAfter, List.getLast?_cons_cons]
    cases e : (d :: ds).getLast? with
    | none => simp at e
    | some x => rfl

lemma findQueryStart_none (cs : List Char) : ∀ (w : Bool),
    (∀ n, ¬(bOkAfter w (cs.take n) = true ∧ startKwAt (cs.drop n) = true)) →
    findQueryStart w cs = none := by
  induction cs with
  | nil => intro w _; rfl
  | cons c rest ih =>
    intro w h
    have h0 := h 0
    simp only [List.take_zero, List.drop_zero] at h0
    have hcond : (!w && startKwAt (c :: rest)) = false := by
      cases hw : w <;> cases hk : startKwAt (c :: rest) <;> simp_all [bOkAfter]
    simp only [findQueryStart, hcond, Bool.false_eq_true, if_false]
    apply ih
    intro n
    have hn := h (n + 1)
    simpa [List.take_succ_cons, List.drop_succ_cons, bOkAfter_cons] using hn

/-- Bounded check suffices: positions beyond the end of the text cannot
match the pattern. -/
lemma noTokenOfBounded (raw : String)
    (h : ∀ n < raw.data.length + 1,
      ¬(bOkAfter false (raw.data.take n) = true ∧ startKwAt (raw.data.drop n) = true)) :
    ∀ n, ¬(bOkAfter false (raw.data.take n) = true ∧ startKwAt (raw.data.drop n) = true) := by
  intro n
  by_cases hn : n < raw.data.length + 1
  · exact h n hn
  · have hd : raw.data.drop n = [] := List.drop_eq_nil_of_le (by omega)
    rw [hd]
    rintro ⟨-, hk⟩
    exact (by decide : startKwAt ([] : List Char) ≠ true) hk

/-!
Claim theorems.
-/

/-- Claim C1: any candidate whose trimmed, uppercased form starts with
neither SELECT nor WITH is rejected with the fixed message and the
database dry-run is never invoked, whatever the database would answer. -/
theorem claim_C1_gate_rejects (explain : String → ExplainOutcome) (sql : String)
    (h1 : strStarts (pyUpper (pyStrip sql)) "SELECT" = false)
    (h2 : strStarts (pyUpper (pyStrip sql)) "WITH" = false) :
    is_query_valid explain sql =
      { result := (false, "Validation failed: Only SELECT or CTE statements can be checked."),
        dbInvoked := false } := by
  simp [is_query_valid, h1, h2, rejectionMessage]

/-- Witness for claim C1: a DROP statement is rejected without reaching
the database even when the database would accept it. -/
theorem claim_C1_gate_rejects_witness :
    is_query_valid (fun _ => ExplainOutcome.ok) "DROP TABLE users" =
      { result := (false, "Validation failed: Only SELECT or CTE statements can be checked."),
        dbInvoked := false } :=
  claim_C1_gate_rejects (fun _ => ExplainOutcome.ok) "DROP TABLE users" rfl rfl

/-- Claim C2: for every sequence of Validator responses and every
max_syntax_retries value n ≥ 0, the loop performs at most n + 1
generation-service calls and terminates, returning a candidate or
raising; with the default n = 2 this is at most 3 attempts. -/
theorem claim_C2_loop_bounded :
    (∀ (gen : Nat → Option String) (validate : Nat → String → Bool × String) (n : Nat),
      (generate_and_validate_sql gen validate n).genCalls ≤ n + 1 ∧
      ((∃ q, (generate_and_validate_sql gen validate n).outcome = .success q) ∨
       (∃ m, (generate_and_validate_sql gen validate n).outcome = .failure m))) ∧
    (∀ (gen : Nat → Option String) (validate : Nat → String → Bool × String),
      (generate_and_validate_sql gen validate 2).genCalls ≤ 3) := by
  have hmain : ∀ (gen : Nat → Option String) (validate : Nat → String → Bool × String)
      (n : Nat), (generate_and_validate_sql gen validate n).genCalls ≤ n + 1 ∧
      ((∃ q, (generate_and_validate_sql gen validate n).outcome = .success q) ∨
       (∃ m, (generate_and_validate_sql gen validate n).outcome = .failure m)) := by
    intro gen validate n
    constructor
    · have := loopAux_genCalls_le gen validate n (n + 1) 0 ""
      simpa [generate_and_validate_sql] using this
    · cases ho : (generate_and_validate_sql gen validate n).outcome with
      | success q => exact Or.inl ⟨q, rfl⟩
      | failure m => exact Or.inr ⟨m, rfl⟩
  exact ⟨hmain, fun gen validate => (hmain gen validate 2).1⟩

/-- Counterexample for claim C3: the normalizer is not idempotent on the
two-argument ROUND pattern — the rewritten form is itself a two-argument
ROUND call, so a second application wraps the first argument in another
CAST. -/
theorem claim_C3_counterexample :
    ¬(fix_postgres_sql (fix_postgres_sql "SELECT ROUND(x, 2) FROM t") =
        fix_postgres_sql "SELECT ROUND(x, 2) FROM t") := by decide

/-- Claim C3 as amended: applying the normalizer twice yields the same
output as applying it once for the backtick-identifier, NOW(), IFNULL,
DATE and FORMAT_DATE patterns, but not for two-argument ROUND: each
application wraps the first argument in a further CAST(.. AS NUMERIC)
layer. -/
theorem claim_C3_amended :
    fix_postgres_sql (fix_postgres_sql "`col`") = fix_postgres_sql "`col`" ∧
    fix_postgres_sql (fix_postgres_sql "NOW()") = fix_postgres_sql "NOW()" ∧
    fix_postgres_sql (fix_postgres_sql "IFNULL(a, b)") = fix_postgres_sql "IFNULL(a, b)" ∧
    fix_postgres_sql (fix_postgres_sql "DATE(x)") = fix_postgres_sql "DATE(x)" ∧
    fix_postgres_sql (fix_postgres_sql "FORMAT_DATE('%B', d)") =
      fix_postgres_sql "FORMAT_DATE('%B', d)" ∧
    fix_postgres_sql "SELECT ROUND(x, 2) FROM t" =
      "SELECT ROUND(CAST(x AS NUMERIC), 2) FROM t" ∧
    fix_postgres_sql (fix_postgres_sql "SELECT ROUND(x, 2) FROM t") =
      "SELECT ROUND(CAST(CAST(x AS NUMERIC) AS NUMERIC), 2) FROM t" := by
  refine ⟨by decide, by decide, by decide, by decide, by decide, by decide, by decide⟩

/-- Claim C4: the six example rewrites of the Dialect Normalizer, plus
rewriting at nesting depth (inside an unmatched call and inside a WHERE
clause) and pass-through of unmatched function names. -/
theorem claim_C4_normalizer_examples :
    fix_postgres_sql "`col`" = "\"col\"" ∧
    fix_postgres_sql "NOW()" = "CURRENT_TIMESTAMP" ∧
    fix_postgres_sql "IFNULL(a, b)" = "COALESCE(a, b)" ∧
    fix_postgres_sql "DATE(x)" = "CAST(x AS DATE)" ∧
    fix_postgres_sql "ROUND(x, 2)" = "ROUND(CAST(x AS NUMERIC), 2)" ∧
    fix_postgres_sql "FORMAT_DATE('%B', d)" = "TO_CHAR(d, 'Month')" ∧
    fix_postgres_sql "SELECT FOO(IFNULL(a, b), DATE(x)) FROM t WHERE NOW() > `y`" =
      "SELECT FOO(COALESCE(a, b), CAST(x AS DATE)) FROM t WHERE CURRENT_TIMESTAMP > \"y\"" ∧
    fix_postgres_sql "SELECT GREATEST(a, b) FROM t" = "SELECT GREATEST(a, b) FROM t" := by
  refine ⟨by decide, by decide, by decide, by decide, by decide, by decide, by decide, by decide⟩

/-- Claim C5: the Output Extractor keeps the text from the first
case-insensitive SELECT/WITH token, truncates at the last semicolon
inclusive when present (otherwise keeps the full remainder), trims
whitespace; the fenced example maps to `SELECT 1;`, an input with no
SELECT/WITH token (at any position, word boundaries included) maps to
the empty string, and a candidate with no terminator is returned whole. -/
theorem claim_C5_extractor :
    (∀ raw : String,
      (∀ n, ¬(bOkAfter false (raw.data.take n) = true ∧
        startKwAt (raw.data.drop n) = true)) →
      clean_sql_output raw = "") ∧
    clean_sql_output "Sure! ```sql\nSELECT 1;\n``` done" = "SELECT 1;" ∧
    clean_sql_output "Answer: select a, b from t order by a" = "select a, b from t order by a" ∧
    clean_sql_output "" = "" := by
  refine ⟨fun raw h => ?_, by decide, by decide, by decide⟩
  unfold clean_sql_output
  rw [findQueryStart_none raw.data false h]

/-- Witness for claim C5: a response with no query-start token at any
position yields the empty string. -/
theorem claim_C5_extractor_witness :
    clean_sql_output "The data returned 42 rows." = "" :=
  claim_C5_extractor.1 "The data returned 42 rows." (noTokenOfBounded _ (by decide))

/-- Claim C6: if every attempt fails validation, the loop raises the
terminal error whose message carries both the configured total attempt
count (max_syntax_retries + 1) and the last validator failure message,
after making exactly that many generation and validation calls. -/
theorem claim_C6_exhaustion (gen : Nat → Option String)
    (validate : Nat → String → Bool × String) (n : Nat)
    (hfail : ∀ k c, (validate k c).1 = false) :
    generate_and_validate_sql gen validate n =
      { outcome := .failure ("Failed to generate a syntactically valid SQL query after "
          ++ Nat.repr (n + 1) ++ " attempts. Last database error: "
          ++ (validate n (candidateAt gen n)).2),
        genCalls := n + 1, valCalls := n + 1 } := by
  have := loopAux_allFail gen validate n hfail n 0 ""
  simpa [generate_and_validate_sql, exhaustionMessage] using this

/-- Witness for claim C6 at concrete oracles. -/
theorem claim_C6_exhaustion_witness :
    generate_and_validate_sql genOracleFenced valOracleFail 1 =
      { outcome := .failure ("Failed to generate a syntactically valid SQL query after 2 attempts. Last database error: syntax error at or near X"),
        genCalls := 2, valCalls := 2 } := by
  rw [claim_C6_exhaustion genOracleFenced valOracleFail 1 (fun _ _ => rfl)]
  decide

/-- Claim C7: if the first generated candidate passes validation, the
loop performs exactly one generation call and one validation call and
returns exactly the string that was handed to the Validator. -/
theorem claim_C7_first_success (gen : Nat → Option String)
    (validate : Nat → String → Bool × String) (n : Nat)
    (h : (validate 0 (candidateAt gen 0)).1 = true) :
    generate_and_validate_sql gen validate n =
      { outcome := .success (candidateAt gen 0), genCalls := 1, valCalls := 1 } := by
  show loopAux gen validate n (n + 1) 0 "" = _
  rw [loopAux_step_true gen validate n n 0 "" h]

/-- Witness for claim C7 at concrete oracles: the fenced response is
extracted to `SELECT 1;` and returned after a single attempt. -/
theorem claim_C7_first_success_witness :
    generate_and_validate_sql genOracleFenced valOracleOk 2 =
      { outcome := .success "SELECT 1;", genCalls := 1, valCalls := 1 } := by
  rw [claim_C7_first_success genOracleFenced valOracleOk 2 rfl]
  decide

/-- Claim C8: every string the loop returns successfully was validated,
within the same invocation, at some attempt k: the candidate of attempt k
is exactly the returned string and the Validator answered true on it;
the loop keeps no state across invocations (its runs are pure functions
of the fresh oracles). -/
theorem claim_C8_returned_implies_validated (gen : Nat → Option String)
    (validate : Nat → String → Bool × String) (n : Nat) (q : String) (gc vc : Nat)
    (h : generate_and_validate_sql gen validate n =
      { outcome := .success q, genCalls := gc, valCalls := vc }) :
    ∃ k, k ≤ n ∧ gc = k + 1 ∧ q = candidateAt gen k ∧ (validate k q).1 = true := by
  have hs := loopAux_success_validated gen validate n (n + 1) 0 "" q gc vc h
  obtain ⟨k, hk1, hk2, hk3, hk4, hk5⟩ := hs
  exact ⟨k, by omega, hk3, hk4, hk5⟩

/-- Witness for claim C8 at concrete oracles. -/
theorem claim_C8_returned_implies_validated_witness :
    ∃ k, k ≤ 2 ∧ 1 = k + 1 ∧ "SELECT 1;" = candidateAt genOracleFenced k ∧
      (valOracleOk k "SELECT 1;").1 = true :=
  claim_C8_returned_implies_validated genOracleFenced valOracleOk 2 "SELECT 1;" 1 1 (by decide)

/-- Claim C9: for every two-argument FORMAT_DATE call the rewrite outputs
TO_CHAR(col, 'Month') and discards the style argument entirely — the
result does not depend on the style parameter at all, and a style other
than '%B' (here '%Y') is silently replaced by 'Month'. -/
theorem claim_C9_format_date_discards_style :
    (∀ p p' q : STok, isParamTok p = true → isParamTok p' = true → isParamTok q = true →
      applyFixes (mkCall2 "FORMAT_DATE" p q) = applyFixes (mkCall2 "FORMAT_DATE" p' q) ∧
      applyFixes (mkCall2 "FORMAT_DATE" p q) =
        mkGroup .funcK (parseSqlToks ("TO_CHAR(" ++ tokVal q ++ ", 'Month')"))) ∧
    fix_postgres_sql "SELECT FORMAT_DATE('%Y', d) FROM t" =
      "SELECT TO_CHAR(d, 'Month') FROM t" ∧
    fix_postgres_sql "SELECT FORMAT_DATE('%B', d) FROM t" =
      "SELECT TO_CHAR(d, 'Month') FROM t" := by
  have key : ∀ r q : STok, isParamTok r = true → isParamTok q = true →
      applyFixes (mkCall2 "FORMAT_DATE" r q) =
        mkGroup .funcK (parseSqlToks ("TO_CHAR(" ++ tokVal q ++ ", 'Month')")) := by
    intro r q hr hq
    simp only [mkCall2, applyFixes, funcNameOf, paramsOf, firstParen, List.filter, hr, hq,
      show isParamTok (.atom .punct "(") = false from rfl,
      show isParamTok (.atom .punct ",") = false from rfl,
      show isParamTok (.atom .ws " ") = false from rfl,
      show isParamTok (.atom .punct ")") = false from rfl]
  refine ⟨fun p p' q hp hp' hq => ⟨?_, key p q hp hq⟩, by decide, by decide⟩
  rw [key p q hp hq, key p' q hp' hq]

/-- Witness for claim C9: two different style literals give the same
rewritten node. -/
theorem claim_C9_format_date_discards_style_witness :
    applyFixes (mkCall2 "FORMAT_DATE" (.atom .stringSingle "'%Y'")
        (.group .identK "d" [.atom .nameTok "d"])) =
      applyFixes (mkCall2 "FORMAT_DATE" (.atom .stringSingle "'%B'")
        (.group .identK "d" [.atom .nameTok "d"])) :=
  (claim_C9_format_date_discards_style.1 (.atom .stringSingle "'%Y'")
    (.atom .stringSingle "'%B'") (.group .identK "d" [.atom .nameTok "d"])
    rfl rfl rfl).1

/-- Claim C10: the read-only gate is a string-prefix check, not a keyword
check: every candidate whose trimmed uppercased form merely begins with
the characters SELECT or WITH — including as a prefix of a longer word —
is sent to the database dry-run instead of being rejected, and is
accepted outright when the dry-run succeeds; in particular `WITHDRAW` and
`SELECTION` statements pass the gate. -/
theorem claim_C10_gate_is_prefix_check :
    (∀ (explain : String → ExplainOutcome) (sql : String),
      (strStarts (pyUpper (pyStrip sql)) "SELECT"
        || strStarts (pyUpper (pyStrip sql)) "WITH") = true →
      (is_query_valid explain sql).dbInvoked = true ∧
        (explain sql = .ok →
          is_query_valid explain sql = { result := (true, "OK"), dbInvoked := true })) ∧
    is_query_valid (fun _ => ExplainOutcome.ok) "WITHDRAW money FROM accounts" =
      { result := (true, "OK"), dbInvoked := true } ∧
    is_query_valid (fun _ => ExplainOutcome.ok) "selection_audit" =
      { result := (true, "OK"), dbInvoked := true } := by
  refine ⟨fun explain sql h => ?_, by decide, by decide⟩
  constructor
  · simp only [is_query_valid, h, Bool.not_true, Bool.false_eq_true, if_false]
    cases explain sql <;> rfl
  · intro he
    simp [is_query_valid, h, he]

/-- Witness for claim C10: a WITHDRAW statement reaches the dry-run and
is accepted when the database accepts it. -/
theorem claim_C10_gate_is_prefix_check_witness :
    is_query_valid (fun _ => ExplainOutcome.ok) "WITHDRAW 500 FROM balance" =
      { result := (true, "OK"), dbInvoked := true } :=
  (claim_C10_gate_is_prefix_check.1 (fun _ => ExplainOutcome.ok)
    "WITHDRAW 500 FROM balance" (by decide)).2 rfl
